import Mathlib

/-!
# passport-kakao-token: the token strategy of `lib/index.js`

A shallow embedding of `KakaoTokenStrategy` (constructor, `authenticate`,
`userProfile`) together with the facts its specification states about it.

Modelling conventions:

* JavaScript values are the inductive `JSValue`.  Numbers are the integer-valued
  ones plus `NaN`.  Property reads see own data properties of plain objects;
  reading a property of `undefined`/`null` throws a `TypeError`, reading one of
  any other non-object yields `undefined`.
* Effects are recorded in a trace of `Event`s: every HTTP GET issued through the
  OAuth2 client, every invocation of the verification function and every
  terminal signal (`success` / `fail` / `error`) appears in call order.
* Any value can be thrown.  The built-in failures (`TypeError` of a property
  read, the error of `JSON.parse`) are `Error` instances (`JSError`); the host's
  signals and the verification function may throw an arbitrary value.
* The collaborators that live outside the file are parameters: the runtime
  built-ins (`url.parse`, `url.format`, `JSON.parse`), the OAuth2 client's
  `get`, the verification function and the host pipeline's three signals.
* The GET callback runs in a later turn of the event loop; the trace lists the
  events of the whole invocation in order, and an exceptional result stands for
  an exception nobody caught.
-/

set_option autoImplicit false

namespace KakaoToken

/-! ## Values -/

/-- JavaScript values handled by the module. -/
inductive JSValue where
  | undefined
  | null
  | bool (b : Bool)
  | num (n : Int)
  | nan
  | str (s : String)
  | obj (props : List (String × JSValue))
  | arr (elems : List JSValue)
  | error (name message : String)
  | internalOAuthError (message : String) (oauthError : JSValue)

instance : Inhabited JSValue := ⟨JSValue.undefined⟩

/-- An `Error` instance raised by a built-in: its class name and message. -/
structure JSError where
  name : String
  message : String

/-- The thrown error as the value a `catch (e)` clause binds. -/
def JSError.toValue (e : JSError) : JSValue :=
  JSValue.error e.name e.message

/-- The `TypeError` raised by reading a property of `undefined` or `null`
(the engine-specific message text is left empty). -/
def typeError : JSError :=
  { name := "TypeError", message := "" }

/-- JavaScript truthiness (`ToBoolean`). -/
def truthy : JSValue → Bool
  | JSValue.undefined => false
  | JSValue.null => false
  | JSValue.bool b => b
  | JSValue.num n => n != 0
  | JSValue.nan => false
  | JSValue.str s => s != ""
  | JSValue.obj _ => true
  | JSValue.arr _ => true
  | JSValue.error _ _ => true
  | JSValue.internalOAuthError _ _ => true

/-- Holds of `undefined` and `null`, the two values without properties. -/
def isNullish : JSValue → Bool
  | JSValue.undefined => true
  | JSValue.null => true
  | _ => false

/-- Own-property lookup in a property list; a missing key reads `undefined`. -/
def lookupProp (key : String) : List (String × JSValue) → JSValue
  | [] => JSValue.undefined
  | (k, v) :: rest => if k = key then v else lookupProp key rest

/-- The value of `v[key]` for a `v` that is neither `undefined` nor `null`. -/
def JSValue.get (v : JSValue) (key : String) : JSValue :=
  match v with
  | JSValue.obj props => lookupProp key props
  | _ => JSValue.undefined

/-- Property read `v[key]` (also `v.key`): throws on `undefined` and `null`. -/
def getProp (v : JSValue) (key : String) : Except JSError JSValue :=
  if isNullish v then Except.error typeError else Except.ok (v.get key)

/-- The expression `a || b` on values. -/
def jsOr (a b : JSValue) : JSValue :=
  if truthy a then a else b

/-! ## Effects -/

/-- One of the three terminal signals of the host pipeline. -/
inductive Signal where
  | success (user info : JSValue)
  | fail (info : JSValue)
  | error (err : JSValue)

/-- An argument handed to the verification function: a value, or the
`verified` callback. -/
inductive Arg where
  | value (v : JSValue)
  | verifiedCallback

/-- Observable events of one invocation, in call order. -/
inductive Event where
  | httpGet (url : String) (accessToken : JSValue)
  | verifyCalled (args : List Arg)
  | signal (s : Signal)
  | doneCalled (error profile : JSValue)

/-- A computation: the events it performed and how it ended. -/
structure Eff (α : Type) where
  trace : List Event
  result : Except JSValue α

/-- Return normally without any event. -/
def Eff.pure {α : Type} (a : α) : Eff α :=
  { trace := [], result := Except.ok a }

/-- Sequencing: an exception in the first part skips the second. -/
def Eff.bind {α β : Type} (m : Eff α) (f : α → Eff β) : Eff β :=
  match m.result with
  | Except.error e => { trace := m.trace, result := Except.error e }
  | Except.ok a => { trace := m.trace ++ (f a).trace, result := (f a).result }

/-- Record one event. -/
def Eff.emit (ev : Event) : Eff Unit :=
  { trace := [ev], result := Except.ok () }

/-- The statement `throw e`. -/
def Eff.throw {α : Type} (e : JSValue) : Eff α :=
  { trace := [], result := Except.error e }

/-- An effect-free evaluation that may throw a built-in error. -/
def Eff.lift {α : Type} (r : Except JSError α) : Eff α :=
  match r with
  | Except.ok a => { trace := [], result := Except.ok a }
  | Except.error e => { trace := [], result := Except.error e.toValue }

/-- The statement `try { body } catch (e) { handler(e) }`. -/
def Eff.tryCatch {α : Type} (body : Eff α) (handler : JSValue → Eff α) : Eff α :=
  match body.result with
  | Except.ok a => { trace := body.trace, result := Except.ok a }
  | Except.error e =>
      { trace := body.trace ++ (handler e).trace, result := (handler e).result }

/-! ## Collaborators -/

/-- Runtime built-ins the module calls. -/
structure Builtins where
  uriParse : String → JSValue
  uriFormat : JSValue → String
  jsonParse : JSValue → Except JSError JSValue

/-- The host pipeline: for each terminal-signal call, the value it throws, if
any. -/
def Host : Type := Signal → Option JSValue

/-- What a verification function does once invoked: it may call `verified`
any number of times and then return or throw.  An exception raised inside a
`verified` call is not caught by the verification function. -/
inductive VerifyScript where
  | ret
  | throws (e : JSValue)
  | callVerified (error user info : JSValue) (next : VerifyScript)

/-- The OAuth2 client held in `this._oauth2`.  `get url accessToken` is the
pair `(error, body)` that the client passes to the callback of
`get(url, accessToken, callback)`; `_clientSecret` is `none` when the property
does not exist. -/
structure OAuth2 where
  _clientSecret : Option String
  get : String → JSValue → JSValue × JSValue

/-- A constructed strategy instance. -/
structure Strategy where
  name : String
  _accessTokenField : String
  _refreshTokenField : String
  _passReqToCallback : JSValue
  _profileURL : String
  _oauth2 : OAuth2
  _verify : List Arg → VerifyScript

/-- Calling a terminal signal on the strategy: the call is recorded, then the
host's implementation may throw. -/
def callSignal (host : Host) (s : Signal) : Eff Unit :=
  Eff.bind (Eff.emit (Event.signal s)) fun _ =>
    match host s with
    | some e => Eff.throw e
    | none => Eff.pure ()

/-! ## `authenticate` (lines 49-76) -/

/-- The expression `req.container && req.container[field]`. -/
def containerField (req : JSValue) (container field : String) : Except JSError JSValue :=
  match getProp req container with
  | Except.error e => Except.error e
  | Except.ok c =>
      if truthy c then
        match getProp req container with
        | Except.error e => Except.error e
        | Except.ok c2 => getProp c2 field
      else Except.ok c

/-- The right-hand side of lines 51 and 52:
`(req.body && req.body[f]) || (req.query && req.query[f]) || (req.headers && req.headers[f])`. -/
def extractField (req : JSValue) (field : String) : Except JSError JSValue :=
  match containerField req "body" field with
  | Except.error e => Except.error e
  | Except.ok b =>
      if truthy b then Except.ok b
      else
        match containerField req "query" field with
        | Except.error e => Except.error e
        | Except.ok q =>
            if truthy q then Except.ok q
            else containerField req "headers" field

/-- The inner function `verified(error, user, info)` of lines 63-68. -/
def verified (host : Host) (error user info : JSValue) : Eff Unit :=
  if truthy error then callSignal host (Signal.error error)
  else if !truthy user then callSignal host (Signal.fail info)
  else callSignal host (Signal.success user info)

/-- Running the body of a verification function against the `verified`
callback it was given. -/
def runScript (cb : JSValue → JSValue → JSValue → Eff Unit) : VerifyScript → Eff Unit
  | VerifyScript.ret => Eff.pure ()
  | VerifyScript.throws e => Eff.throw e
  | VerifyScript.callVerified error user info next =>
      Eff.bind (cb error user info) fun _ => runScript cb next

/-- The call `self._verify(args...)`: recorded, then the function runs. -/
def callVerify (self : Strategy) (host : Host) (args : List Arg) : Eff Unit :=
  Eff.bind (Eff.emit (Event.verifyCalled args)) fun _ =>
    runScript (verified host) (self._verify args)

/-- The profile object literal of lines 101-110, evaluated after
`JSON.parse(body)` (line 100); any of the reads may throw. -/
def buildProfile (b : Builtins) (body : JSValue) : Except JSError JSValue :=
  match b.jsonParse body with
  | Except.error e => Except.error e
  | Except.ok json =>
      match getProp json "id" with
      | Except.error e => Except.error e
      | Except.ok id =>
          match getProp json "properties" with
          | Except.error e => Except.error e
          | Except.ok props =>
              match getProp props "nickname" with
              | Except.error e => Except.error e
              | Except.ok nickname =>
                  match getProp json "properties" with
                  | Except.error e => Except.error e
                  | Except.ok props2 =>
                      match getProp props2 "profile_image" with
                      | Except.error e => Except.error e
                      | Except.ok image =>
                          Except.ok (JSValue.obj
                            [("provider", JSValue.str "kakao"),
                             ("id", id),
                             ("displayName", jsOr nickname (JSValue.str "")),
                             ("photos", JSValue.arr [JSValue.obj [("value", image)]]),
                             ("_raw", body),
                             ("_json", json)])

/-- The callback given to `this._oauth2.get` (lines 96-116). -/
def profileCallback (b : Builtins) (done : JSValue → JSValue → Eff Unit)
    (error body : JSValue) : Eff Unit :=
  if truthy error then
    done (JSValue.internalOAuthError "Failed to fetch user profile" error) JSValue.undefined
  else
    Eff.tryCatch
      (Eff.bind (Eff.lift (buildProfile b body)) fun profile => done JSValue.null profile)
      (fun e => done e JSValue.undefined)

/-- The method `userProfile(accessToken, done)` (lines 91-117). -/
def userProfile (b : Builtins) (self : Strategy) (accessToken : JSValue)
    (done : JSValue → JSValue → Eff Unit) : Eff Unit :=
  let url := b.uriFormat (b.uriParse self._profileURL)
  Eff.bind (Eff.emit (Event.httpGet url accessToken)) fun _ =>
    profileCallback b done (self._oauth2.get url accessToken).1
      (self._oauth2.get url accessToken).2

/-- The inherited `_loadUserProfile` of the OAuth2 base strategy with its
default settings: it delegates to `userProfile`. -/
def _loadUserProfile (b : Builtins) (self : Strategy) (accessToken : JSValue)
    (done : JSValue → JSValue → Eff Unit) : Eff Unit :=
  userProfile b self accessToken done

/-- The callback given to `_loadUserProfile` (lines 60-75). -/
def afterProfile (host : Host) (self : Strategy) (req accessToken refreshToken : JSValue)
    (error profile : JSValue) : Eff Unit :=
  if truthy error then callSignal host (Signal.error error)
  else if truthy self._passReqToCallback then
    callVerify self host
      [Arg.value req, Arg.value accessToken, Arg.value refreshToken, Arg.value profile,
       Arg.verifiedCallback]
  else
    callVerify self host
      [Arg.value accessToken, Arg.value refreshToken, Arg.value profile, Arg.verifiedCallback]

/-- The info object of the missing-token failure (lines 55-57). -/
def missingTokenInfo : JSValue :=
  JSValue.obj [("message", JSValue.str "You should provide access_token")]

/-- The method `authenticate(req, options)` (lines 49-76). -/
def authenticate (b : Builtins) (host : Host) (self : Strategy) (req : JSValue) : Eff Unit :=
  Eff.bind (Eff.lift (extractField req self._accessTokenField)) fun accessToken =>
    Eff.bind (Eff.lift (extractField req self._refreshTokenField)) fun refreshToken =>
      if !truthy accessToken then callSignal host (Signal.fail missingTokenInfo)
      else
        _loadUserProfile b self accessToken
          (afterProfile host self req accessToken refreshToken)

/-! ## The constructor (lines 26-41) -/

/-- The options object given to the constructor.  The string-valued options
are optional strings: `none` is a missing key.  `readOnly key` holds when the
object does not take an assignment to `key`: the property is not writable, or
it is missing and the object is not extensible; on a frozen object every key
is read-only. -/
structure Options where
  clientID : JSValue
  clientSecret : Option String
  authorizationURL : Option String
  tokenURL : Option String
  scopeSeparator : Option String
  accessTokenField : Option String
  refreshTokenField : Option String
  passReqToCallback : JSValue
  profileURL : Option String
  readOnly : String → Bool

/-- The empty options object `{}`, an ordinary writable object. -/
def Options.empty : Options :=
  { clientID := JSValue.undefined, clientSecret := none, authorizationURL := none,
    tokenURL := none, scopeSeparator := none, accessTokenField := none,
    refreshTokenField := none, passReqToCallback := JSValue.undefined, profileURL := none,
    readOnly := fun _ => false }

/-- The expression `options.key || dflt` for a string option: a missing key and
the empty string are both falsy. -/
def orDefault (supplied : Option String) (dflt : String) : String :=
  match supplied with
  | some s => if s = "" then dflt else s
  | none => dflt

/-- Lines 27-31: `options || {}` followed by the four assignments into that
object, which is then handed to the base constructor.  The module is not in
strict mode, so an assignment to a read-only key is dropped silently. -/
def normalizeOptions (options : Option Options) : Options :=
  let o := options.getD Options.empty
  let o1 :=
    if o.readOnly "authorizationURL" then o
    else { o with
      authorizationURL :=
        some (orDefault o.authorizationURL "https://kauth.kakao.com/oauth/authorize") }
  let o2 :=
    if o1.readOnly "tokenURL" then o1
    else { o1 with tokenURL := some (orDefault o1.tokenURL "https://kauth.kakao.com/oauth/token") }
  let o3 :=
    if o2.readOnly "scopeSeparator" then o2
    else { o2 with scopeSeparator := some (orDefault o2.scopeSeparator ",") }
  if o3.readOnly "clientSecret" then o3 else { o3 with clientSecret := some "kakao" }

/-- What the base constructor `OAuth2Strategy.call(this, options, verify)`
leaves on the instance, as far as this module uses it. -/
structure BaseInstance where
  _oauth2 : OAuth2
  _verify : List Arg → VerifyScript

/-- The constructor `KakaoTokenStrategy(options, verify)`.  The base
constructor is a parameter; it may throw. -/
def KakaoTokenStrategy
    (base : Options → (List Arg → VerifyScript) → Except JSError BaseInstance)
    (options : Option Options) (verify : List Arg → VerifyScript) : Except JSError Strategy :=
  let opts := normalizeOptions options
  match base opts verify with
  | Except.error e => Except.error e
  | Except.ok inst =>
      Except.ok
        { name := "kakao-token",
          _accessTokenField := orDefault opts.accessTokenField "access_token",
          _refreshTokenField := orDefault opts.refreshTokenField "refresh_token",
          _passReqToCallback := opts.passReqToCallback,
          _profileURL := orDefault opts.profileURL "https://kapi.kakao.com/v1/user/me",
          _oauth2 := { inst._oauth2 with _clientSecret := none },
          _verify := inst._verify }

/-! ## Specification-side definitions -/

/-- Follows the specification: the values found under `field` in the body,
the query and the headers, in that order; an absent container is skipped. -/
def specCandidates (req : JSValue) (field : String) : List JSValue :=
  ["body", "query", "headers"].filterMap fun container =>
    if truthy (req.get container) then some ((req.get container).get field) else none

/-- Follows the specification: the first non-empty candidate wins. -/
def specCredential (req : JSValue) (field : String) : Option JSValue :=
  (specCandidates req field).find? truthy

/-- The field is absent or empty in the given container of the request (the
container itself may be absent). -/
def fieldMissing (req : JSValue) (container field : String) : Prop :=
  truthy (req.get container) = false ∨ truthy ((req.get container).get field) = false

/-- The field holds the non-empty value `t` in the given container. -/
def fieldPresent (req : JSValue) (container field : String) (t : JSValue) : Prop :=
  truthy (req.get container) = true ∧ (req.get container).get field = t ∧ truthy t = true

/-- A configured value is the supplied one when one is supplied (present and
non-empty) and the default otherwise. -/
def SuppliedOrDefault (supplied : Option String) (dflt value : String) : Prop :=
  (∀ v, supplied = some v → v ≠ "" → value = v) ∧
  ((supplied = none ∨ supplied = some "") → value = dflt)

/-- The value of `req.container && req.container[field]` on a request object. -/
def containerValue (req : JSValue) (container field : String) : JSValue :=
  if truthy (req.get container) then (req.get container).get field else req.get container

/-- Follows the specification: `error` if set, else `fail(info)` for a falsy
user, else `success(user, info)`. -/
def verdict (error user info : JSValue) : Signal :=
  if truthy error then Signal.error error
  else if truthy user then Signal.success user info
  else Signal.fail info

/-- The terminal signals of a trace, in call order. -/
def signalsOf (t : List Event) : List Signal :=
  t.filterMap fun ev =>
    match ev with
    | Event.signal s => some s
    | _ => none

/-- The argument lists of the verification-function calls of a trace. -/
def verifyCallsOf (t : List Event) : List (List Arg) :=
  t.filterMap fun ev =>
    match ev with
    | Event.verifyCalled args => some args
    | _ => none

/-- A `done` callback that only records how it was called. -/
def recordDone (error profile : JSValue) : Eff Unit :=
  Eff.emit (Event.doneCalled error profile)

/-! ## Examples used to instantiate the statements -/

/-- JSON whitespace. -/
def isJsonSpace (c : Char) : Bool :=
  c = ' ' || c = '\n' || c = '\t' || c = '\r'

/-- Drop leading JSON whitespace. -/
def skipSpace : List Char → List Char
  | [] => []
  | c :: cs => if isJsonSpace c then skipSpace cs else c :: cs

/-- The character named by a one-letter JSON escape. -/
def unescape (c : Char) : Option Char :=
  if c = '"' then some '"'
  else if c = '\\' then some '\\'
  else if c = '/' then some '/'
  else if c = 'n' then some '\n'
  else if c = 't' then some '\t'
  else if c = 'r' then some '\r'
  else none

/-- Read the rest of a JSON string after its opening quote. -/
def readString (acc : List Char) : List Char → Option (String × List Char)
  | [] => none
  | c :: rest =>
      if c = '"' then some (String.mk acc.reverse, rest)
      else if c = '\\' then
        match rest with
        | [] => none
        | d :: rest2 =>
            match unescape d with
            | some x => readString (x :: acc) rest2
            | none => none
      else readString (c :: acc) rest

/-- Read a run of decimal digits. -/
def readDigits (acc : Nat) : List Char → Nat × List Char
  | [] => (acc, [])
  | c :: cs =>
      if c.isDigit then readDigits (acc * 10 + (c.toNat - 48)) cs else (acc, c :: cs)

/-- Read an unsigned JSON integer: a lone `0`, or digits without a leading zero. -/
def readInteger (cs : List Char) : Nat × List Char :=
  match cs with
  | [] => (0, [])
  | c :: rest => if c = '0' then (0, rest) else readDigits 0 (c :: rest)

/-- Assignment to an object key: replace the member or append it. -/
def setProp (key : String) (v : JSValue) : List (String × JSValue) → List (String × JSValue)
  | [] => [(key, v)]
  | (k, w) :: rest => if k = key then (k, v) :: rest else (k, w) :: setProp key v rest

/-- What the JSON reader is in the middle of. -/
inductive Goal where
  | value
  | members (acc : List (String × JSValue))
  | elements (acc : List JSValue)

/-- A reader for JSON texts whose numbers are integers and whose strings use
one-letter escapes only; `none` is a text it does not accept. -/
def readJson : Nat → Goal → List Char → Option (JSValue × List Char)
  | 0, _, _ => none
  | fuel + 1, Goal.value, cs =>
      match skipSpace cs with
      | [] => none
      | c :: rest =>
          if c = '\x7b' then
            match skipSpace rest with
            | [] => none
            | d :: rest2 =>
                if d = '\x7d' then some (JSValue.obj [], rest2)
                else readJson fuel (Goal.members []) (d :: rest2)
          else if c = '[' then
            match skipSpace rest with
            | [] => none
            | d :: rest2 =>
                if d = ']' then some (JSValue.arr [], rest2)
                else readJson fuel (Goal.elements []) (d :: rest2)
          else if c = '"' then
            match readString [] rest with
            | some (s, rest2) => some (JSValue.str s, rest2)
            | none => none
          else if c = '-' then
            match rest with
            | [] => none
            | d :: _ =>
                if d.isDigit then
                  some (JSValue.num (-((readInteger rest).1 : Int)), (readInteger rest).2)
                else none
          else if c.isDigit then
            some (JSValue.num ((readInteger (c :: rest)).1 : Int), (readInteger (c :: rest)).2)
          else
            match c :: rest with
            | 't' :: 'r' :: 'u' :: 'e' :: rest2 => some (JSValue.bool true, rest2)
            | 'f' :: 'a' :: 'l' :: 's' :: 'e' :: rest2 => some (JSValue.bool false, rest2)
            | 'n' :: 'u' :: 'l' :: 'l' :: rest2 => some (JSValue.null, rest2)
            | _ => none
  | fuel + 1, Goal.members acc, cs =>
      match skipSpace cs with
      | [] => none
      | c :: rest =>
          if c = '"' then
            match readString [] rest with
            | none => none
            | some (key, rest2) =>
                match skipSpace rest2 with
                | [] => none
                | d :: rest3 =>
                    if d = ':' then
                      match readJson fuel Goal.value rest3 with
                      | none => none
                      | some (v, rest4) =>
                          match skipSpace rest4 with
                          | [] => none
                          | e :: rest5 =>
                              if e = ',' then
                                readJson fuel (Goal.members (setProp key v acc)) rest5
                              else if e = '\x7d' then
                                some (JSValue.obj (setProp key v acc), rest5)
                              else none
                    else none
          else none
  | fuel + 1, Goal.elements acc, cs =>
      match readJson fuel Goal.value cs with
      | none => none
      | some (v, rest) =>
          match skipSpace rest with
          | [] => none
          | e :: rest2 =>
              if e = ',' then readJson fuel (Goal.elements (acc ++ [v])) rest2
              else if e = ']' then some (JSValue.arr (acc ++ [v]), rest2)
              else none

/-- The `SyntaxError` of a rejected JSON text (message text left empty). -/
def syntaxError : JSError :=
  { name := "SyntaxError", message := "" }

/-- An instance of `JSON.parse` on the texts `readJson` accepts. -/
def exampleJsonParse (v : JSValue) : Except JSError JSValue :=
  match v with
  | JSValue.str s =>
      match readJson (2 * s.length + 2) Goal.value s.data with
      | some (json, rest) =>
          match skipSpace rest with
          | [] => Except.ok json
          | _ :: _ => Except.error syntaxError
      | none => Except.error syntaxError
  | _ => Except.error syntaxError

/-- Example built-ins: URLs are kept as written, JSON is read by
`exampleJsonParse`. -/
def exampleBuiltins : Builtins :=
  { uriParse := fun s => JSValue.obj [("href", JSValue.str s)],
    uriFormat := fun u =>
      match u.get "href" with
      | JSValue.str s => s
      | _ => "",
    jsonParse := exampleJsonParse }

/-- A host whose signals return normally. -/
def quietHost : Host :=
  fun _ => none

/-- A verification function that calls back once and returns. -/
def verifyOnce (error user info : JSValue) : List Arg → VerifyScript :=
  fun _ => VerifyScript.callVerified error user info VerifyScript.ret

/-- A verification function that calls back once and then throws. -/
def verifyThenThrow (error user info thrown : JSValue) : List Arg → VerifyScript :=
  fun _ => VerifyScript.callVerified error user info (VerifyScript.throws thrown)

/-- An example strategy with the default settings, whose profile GET hands
`response` to its callback. -/
def exampleStrategy (response : JSValue × JSValue) (passReq : JSValue)
    (verify : List Arg → VerifyScript) : Strategy :=
  { name := "kakao-token",
    _accessTokenField := "access_token",
    _refreshTokenField := "refresh_token",
    _passReqToCallback := passReq,
    _profileURL := "https://kapi.kakao.com/v1/user/me",
    _oauth2 := { _clientSecret := none, get := fun _ _ => response },
    _verify := verify }

/-- The profile document of the specification example. -/
def aliceBody : JSValue :=
  JSValue.str "\x7b\"id\": 123, \"properties\": \x7b\"nickname\": \"Alice\", \"profile_image\": \"http://x/img.png\"\x7d\x7d"

/-- The parsed form of `aliceBody`. -/
def aliceJson : JSValue :=
  JSValue.obj
    [("id", JSValue.num 123),
     ("properties", JSValue.obj
        [("nickname", JSValue.str "Alice"), ("profile_image", JSValue.str "http://x/img.png")])]

/-- The normalized profile of the specification example. -/
def aliceProfile : JSValue :=
  JSValue.obj
    [("provider", JSValue.str "kakao"),
     ("id", JSValue.num 123),
     ("displayName", JSValue.str "Alice"),
     ("photos", JSValue.arr [JSValue.obj [("value", JSValue.str "http://x/img.png")]]),
     ("_raw", aliceBody),
     ("_json", aliceJson)]

/-- A request carrying the access token `tok` in its body. -/
def bodyTokenRequest : JSValue :=
  JSValue.obj [("body", JSValue.obj [("access_token", JSValue.str "tok")])]

/-- Holds of a string option that is present and non-empty. -/
def isSupplied (x : Option String) : Bool :=
  match x with
  | some v => v != ""
  | none => false

/-- A base constructor with the checks of the OAuth2 base strategy: it throws
a `TypeError` when the authorization URL, the token URL or the client ID is
missing, and otherwise builds the OAuth2 client with the client secret of the
options it was given. -/
def exampleBase (opts : Options) (verify : List Arg → VerifyScript) :
    Except JSError BaseInstance :=
  if !isSupplied opts.authorizationURL then
    Except.error
      { name := "TypeError", message := "OAuth2Strategy requires a authorizationURL option" }
  else if !isSupplied opts.tokenURL then
    Except.error { name := "TypeError", message := "OAuth2Strategy requires a tokenURL option" }
  else if !truthy opts.clientID then
    Except.error { name := "TypeError", message := "OAuth2Strategy requires a clientID option" }
  else
    Except.ok
      { _oauth2 := { _clientSecret := opts.clientSecret,
                     get := fun _ _ => (JSValue.null, aliceBody) },
        _verify := verify }

/-- Options naming the application, a field name and a client secret. -/
def exampleOptions : Options :=
  { Options.empty with
    clientID := JSValue.str "app-key", clientSecret := some "s3cret",
    accessTokenField := some "token" }

/-- Options whose scope separator is supplied as the empty string. -/
def emptySeparatorOptions : Options :=
  { Options.empty with clientID := JSValue.str "app-key", scopeSeparator := some "" }

/-- A frozen options object carrying its own client secret and endpoints. -/
def frozenOptions : Options :=
  { Options.empty with
    clientID := JSValue.str "app-key", clientSecret := some "mine",
    authorizationURL := some "https://kauth.kakao.com/oauth/authorize",
    tokenURL := some "https://kauth.kakao.com/oauth/token",
    readOnly := fun _ => true }

/-! # Theorems -/

/-! ## Basic facts -/

theorem isNullish_of_truthy {v : JSValue} (h : truthy v = true) : isNullish v = false := by
  cases v <;> simp_all [truthy, isNullish]

theorem truthy_toValue (e : JSError) : truthy e.toValue = true := rfl

theorem getProp_ok {v : JSValue} (key : String) (h : isNullish v = false) :
    getProp v key = Except.ok (v.get key) := by
  simp [getProp, h]

theorem Eff.lift_ok_bind {α β : Type} (a : α) (f : α → Eff β) :
    Eff.bind (Eff.lift (Except.ok a)) f = f a := by
  simp [Eff.bind, Eff.lift]

theorem Eff.lift_error_bind {α β : Type} (e : JSError) (f : α → Eff β) :
    Eff.bind (Eff.lift (Except.error e : Except JSError α)) f = Eff.throw e.toValue := by
  simp [Eff.bind, Eff.lift, Eff.throw]

theorem Eff.throw_tryCatch {α : Type} (e : JSValue) (handler : JSValue → Eff α) :
    Eff.tryCatch (Eff.throw e) handler = handler e := by
  simp [Eff.tryCatch, Eff.throw]

theorem Eff.emit_bind_trace {β : Type} (ev : Event) (f : Unit → Eff β) :
    (Eff.bind (Eff.emit ev) f).trace = ev :: (f ()).trace := by
  simp [Eff.bind, Eff.emit]

theorem Eff.emit_bind_result {β : Type} (ev : Event) (f : Unit → Eff β) :
    (Eff.bind (Eff.emit ev) f).result = (f ()).result := by
  simp [Eff.bind, Eff.emit]

theorem callSignal_trace (host : Host) (s : Signal) :
    (callSignal host s).trace = [Event.signal s] := by
  unfold callSignal
  rw [Eff.emit_bind_trace]
  cases host s <;> simp [Eff.throw, Eff.pure]

theorem callSignal_result (host : Host) (s : Signal) (h : host s = none) :
    (callSignal host s).result = Except.ok () := by
  unfold callSignal
  rw [Eff.emit_bind_result]
  simp [h, Eff.pure]

theorem verified_eq (host : Host) (error user info : JSValue) :
    verified host error user info = callSignal host (verdict error user info) := by
  unfold verified verdict
  by_cases he : truthy error = true
  · simp [he]
  · by_cases hu : truthy user = true
    · simp [he, hu]
    · simp [he, hu]

theorem runScript_verifyCalls (host : Host) (script : VerifyScript) :
    verifyCallsOf (runScript (verified host) script).trace = [] := by
  induction script with
  | ret => rfl
  | throws e => rfl
  | callVerified error user info next ih =>
      simp only [runScript, Eff.bind]
      have ht : verifyCallsOf (verified host error user info).trace = [] := by
        rw [verified_eq, callSignal_trace]; rfl
      cases hr : (verified host error user info).result with
      | error e => simpa using ht
      | ok a =>
          simp only [verifyCallsOf, List.filterMap_append] at ih ht ⊢
          rw [ht, ih]; rfl

theorem containerField_ok {req : JSValue} (container field : String)
    (h : isNullish req = false) :
    containerField req container field = Except.ok (containerValue req container field) := by
  unfold containerField containerValue
  rw [getProp_ok container h]
  by_cases hc : truthy (req.get container) = true
  · simp [hc, getProp_ok field (isNullish_of_truthy hc)]
  · simp [hc]

theorem extractField_ok {req : JSValue} (field : String) (h : isNullish req = false) :
    extractField req field =
      Except.ok
        (if truthy (containerValue req "body" field) then containerValue req "body" field
         else if truthy (containerValue req "query" field) then containerValue req "query" field
         else containerValue req "headers" field) := by
  unfold extractField
  simp only [containerField_ok _ _ h]
  split_ifs <;> rfl

theorem containerValue_missing {req : JSValue} {container field : String}
    (h : fieldMissing req container field) :
    truthy (containerValue req container field) = false := by
  unfold containerValue
  rcases h with h | h
  · simp [h]
  · by_cases hc : truthy (req.get container) = true
    · simp [hc, h]
    · simp [hc]

theorem containerValue_present {req : JSValue} {container field : String} {t : JSValue}
    (h : fieldPresent req container field t) : containerValue req container field = t := by
  unfold containerValue
  simp [h.1, h.2.1]

theorem authenticate_with_token (b : Builtins) (host : Host) (self : Strategy)
    (req accessToken refreshToken : JSValue)
    (haccess : extractField req self._accessTokenField = Except.ok accessToken)
    (hrefresh : extractField req self._refreshTokenField = Except.ok refreshToken)
    (htoken : truthy accessToken = true) :
    authenticate b host self req =
      userProfile b self accessToken (afterProfile host self req accessToken refreshToken) := by
  unfold authenticate _loadUserProfile
  rw [haccess, hrefresh, Eff.lift_ok_bind, Eff.lift_ok_bind]
  simp [htoken]

theorem userProfile_fetch_failed (b : Builtins) (self : Strategy)
    (accessToken err body : JSValue) (done : JSValue → JSValue → Eff Unit)
    (hget : self._oauth2.get (b.uriFormat (b.uriParse self._profileURL)) accessToken = (err, body))
    (herr : truthy err = true) :
    userProfile b self accessToken done =
      Eff.bind (Eff.emit (Event.httpGet (b.uriFormat (b.uriParse self._profileURL)) accessToken))
        fun _ => done (JSValue.internalOAuthError "Failed to fetch user profile" err)
          JSValue.undefined := by
  unfold userProfile profileCallback
  simp [hget, herr]

theorem userProfile_fetched (b : Builtins) (self : Strategy)
    (accessToken err body : JSValue) (done : JSValue → JSValue → Eff Unit)
    (hget : self._oauth2.get (b.uriFormat (b.uriParse self._profileURL)) accessToken = (err, body))
    (herr : truthy err = false) :
    userProfile b self accessToken done =
      Eff.bind (Eff.emit (Event.httpGet (b.uriFormat (b.uriParse self._profileURL)) accessToken))
        fun _ =>
          Eff.tryCatch
            (Eff.bind (Eff.lift (buildProfile b body)) fun profile => done JSValue.null profile)
            (fun e => done e JSValue.undefined) := by
  unfold userProfile profileCallback
  simp [hget, herr]

theorem buildProfile_ok (b : Builtins) (body json : JSValue)
    (hparse : b.jsonParse body = Except.ok json)
    (hjson : isNullish json = false)
    (hprops : isNullish (json.get "properties") = false) :
    buildProfile b body =
      Except.ok (JSValue.obj
        [("provider", JSValue.str "kakao"),
         ("id", json.get "id"),
         ("displayName", jsOr ((json.get "properties").get "nickname") (JSValue.str "")),
         ("photos", JSValue.arr
            [JSValue.obj [("value", (json.get "properties").get "profile_image")]]),
         ("_raw", body),
         ("_json", json)]) := by
  unfold buildProfile
  simp [hparse, getProp_ok _ hjson, getProp_ok _ hprops]

theorem afterProfile_null (host : Host) (self : Strategy)
    (req accessToken refreshToken profile : JSValue) :
    afterProfile host self req accessToken refreshToken JSValue.null profile =
      callVerify self host
        (if truthy self._passReqToCallback then
          [Arg.value req, Arg.value accessToken, Arg.value refreshToken, Arg.value profile,
           Arg.verifiedCallback]
         else
          [Arg.value accessToken, Arg.value refreshToken, Arg.value profile,
           Arg.verifiedCallback]) := by
  have hnull : truthy JSValue.null = false := rfl
  unfold afterProfile
  by_cases h : truthy self._passReqToCallback = true <;> simp [h, hnull]

theorem afterProfile_error (host : Host) (self : Strategy)
    (req accessToken refreshToken error profile : JSValue) (h : truthy error = true) :
    afterProfile host self req accessToken refreshToken error profile =
      callSignal host (Signal.error error) := by
  unfold afterProfile
  simp [h]

/-! ## Missing token (C1) -/

/-- C1: when the access-token field is absent or empty in the body, the query
and the headers of the request (an absent container included), `authenticate`
performs exactly one effect, the signal `fail({message: "You should provide
access_token"})`: no `success`, no `error`, no HTTP GET and no call of the
verification function. -/
theorem authenticate_missing_token (b : Builtins) (host : Host) (self : Strategy)
    (req : JSValue) (hreq : isNullish req = false)
    (hbody : fieldMissing req "body" self._accessTokenField)
    (hquery : fieldMissing req "query" self._accessTokenField)
    (hheaders : fieldMissing req "headers" self._accessTokenField) :
    (authenticate b host self req).trace =
      [Event.signal (Signal.fail
        (JSValue.obj [("message", JSValue.str "You should provide access_token")]))] := by
  have haccess := extractField_ok self._accessTokenField hreq
  simp only [containerValue_missing hbody, containerValue_missing hquery, Bool.false_eq_true,
    if_false] at haccess
  unfold authenticate
  rw [haccess, extractField_ok _ hreq, Eff.lift_ok_bind, Eff.lift_ok_bind]
  simp only [containerValue_missing hheaders, Bool.not_false, if_true]
  exact callSignal_trace host _

theorem authenticate_missing_token_witness :
    (authenticate exampleBuiltins quietHost
        (exampleStrategy (JSValue.null, aliceBody) JSValue.undefined
          (verifyOnce JSValue.null JSValue.null JSValue.null))
        (JSValue.obj [("body", JSValue.obj []),
          ("headers", JSValue.obj [("access_token", JSValue.str "")])])).trace =
      [Event.signal (Signal.fail
        (JSValue.obj [("message", JSValue.str "You should provide access_token")]))] :=
  authenticate_missing_token exampleBuiltins quietHost _ _ rfl (Or.inr rfl) (Or.inl rfl)
    (Or.inr rfl)

/-! ## Credential extraction (C2) -/

/-- C2: on every request object and for every field name, the credential read
by `authenticate` (line 51 for the access token, line 52 for the refresh
token) is the first non-empty value among `body[field]`, `query[field]` and
`headers[field]`, absent containers being skipped without error; when there
is no non-empty value the credential read is empty.  A token present in the
body is used, one present in the query is used when the body has none, one
present in the headers is used when body and query have none, and the access
token found is the one the profile GET is issued with. -/
theorem extractField_first_non_empty (req : JSValue) (field : String)
    (hreq : isNullish req = false) :
    (∃ v, extractField req field = Except.ok v ∧
      (∀ w, specCredential req field = some w → v = w) ∧
      (specCredential req field = none → truthy v = false)) ∧
    (∀ t, fieldPresent req "body" field t → extractField req field = Except.ok t) ∧
    (∀ t, fieldMissing req "body" field → fieldPresent req "query" field t →
      extractField req field = Except.ok t) ∧
    (∀ t, fieldMissing req "body" field → fieldMissing req "query" field →
      fieldPresent req "headers" field t → extractField req field = Except.ok t) ∧
    (∀ (b : Builtins) (host : Host) (self : Strategy) (t : JSValue),
      self._accessTokenField = field → specCredential req field = some t →
      (authenticate b host self req).trace.head? =
        some (Event.httpGet (b.uriFormat (b.uriParse self._profileURL)) t)) := by
  have hspec : ∀ v, extractField req field = Except.ok v →
      (∀ w, specCredential req field = some w → v = w) ∧
      (specCredential req field = none → truthy v = false) := by
    intro v hv
    rw [extractField_ok _ hreq] at hv
    injection hv with hv
    subst hv
    unfold specCredential specCandidates containerValue
    by_cases h1 : truthy (req.get "body") = true <;>
    by_cases h2 : truthy (req.get "query") = true <;>
    by_cases h3 : truthy (req.get "headers") = true <;>
    by_cases h4 : truthy ((req.get "body").get field) = true <;>
    by_cases h5 : truthy ((req.get "query").get field) = true <;>
    by_cases h6 : truthy ((req.get "headers").get field) = true <;>
    simp_all [List.filterMap, List.find?]
  refine ⟨⟨_, extractField_ok _ hreq, hspec _ (extractField_ok _ hreq)⟩, ?_, ?_, ?_, ?_⟩
  · intro t hb
    rw [extractField_ok _ hreq, containerValue_present hb]
    simp [hb.2.2]
  · intro t hb hq
    rw [extractField_ok _ hreq, containerValue_missing hb, containerValue_present hq]
    simp [hq.2.2]
  · intro t hb hq hh
    rw [extractField_ok _ hreq, containerValue_missing hb, containerValue_missing hq,
      containerValue_present hh]
    simp
  · intro b host self t hfield ht
    have hv := extractField_ok field hreq
    have ht2 := (hspec _ hv).1 t ht
    have htruthy : truthy t = true := by
      unfold specCredential at ht
      simpa using List.find?_some ht
    rw [ht2] at hv
    rw [authenticate_with_token b host self req t _ (hfield ▸ hv)
      (extractField_ok self._refreshTokenField hreq) htruthy]
    unfold userProfile
    rw [Eff.emit_bind_trace]
    rfl

theorem extractField_first_non_empty_witness :
    extractField
        (JSValue.obj [("query", JSValue.obj [("access_token", JSValue.str "q")]),
          ("headers", JSValue.obj [("access_token", JSValue.str "h")])])
        "access_token" = Except.ok (JSValue.str "q") :=
  (extractField_first_non_empty
    (JSValue.obj [("query", JSValue.obj [("access_token", JSValue.str "q")]),
      ("headers", JSValue.obj [("access_token", JSValue.str "h")])])
    "access_token" rfl).2.2.1 (JSValue.str "q")
    (Or.inl rfl) ⟨rfl, rfl, rfl⟩

/-! ## Exactly one terminal signal (C3) -/

/-- C3: the request carries an access token, the profile GET succeeds with the
document of the specification example, and the verification function calls
`verified(null, {id: 1}, {scope: "full"})` and then throws `Error("boom")`.
The exception leaves `done(null, profile)` inside the `try` block of
`userProfile`, whose `catch` calls `done(e)`: `authenticate` signals `success`
and then `error`, two terminal signals in one invocation. -/
theorem authenticate_signals_twice :
    signalsOf
        (authenticate exampleBuiltins quietHost
          (exampleStrategy (JSValue.null, aliceBody) JSValue.undefined
            (verifyThenThrow JSValue.null (JSValue.obj [("id", JSValue.num 1)])
              (JSValue.obj [("scope", JSValue.str "full")])
              (JSValue.error "Error" "boom")))
          bodyTokenRequest).trace =
      [Signal.success (JSValue.obj [("id", JSValue.num 1)])
          (JSValue.obj [("scope", JSValue.str "full")]),
       Signal.error (JSValue.error "Error" "boom")] := by
  rfl

/-! ## Profile normalization (C4, C5, C6) -/

/-- C4: when the profile GET succeeds and the body parses to a JSON object
with a `properties` object, `userProfile` calls `done(null, profile)` with
`profile = {provider: "kakao", id: json.id, displayName:
json.properties.nickname || "", photos: [{value:
json.properties.profile_image}], _raw: body, _json: json}`; the call is the
only one unless it throws, and `displayName` is the nickname whenever the
nickname is a non-empty string. -/
theorem userProfile_builds_profile (b : Builtins) (self : Strategy)
    (accessToken err body : JSValue) (jprops pprops : List (String × JSValue))
    (profile : JSValue)
    (hget : self._oauth2.get (b.uriFormat (b.uriParse self._profileURL)) accessToken = (err, body))
    (herr : truthy err = false)
    (hparse : b.jsonParse body = Except.ok (JSValue.obj jprops))
    (hprops : lookupProp "properties" jprops = JSValue.obj pprops)
    (hprofile : profile = JSValue.obj
      [("provider", JSValue.str "kakao"),
       ("id", lookupProp "id" jprops),
       ("displayName", jsOr (lookupProp "nickname" pprops) (JSValue.str "")),
       ("photos", JSValue.arr [JSValue.obj [("value", lookupProp "profile_image" pprops)]]),
       ("_raw", body),
       ("_json", JSValue.obj jprops)]) :
    (∀ done : JSValue → JSValue → Eff Unit,
      userProfile b self accessToken done =
        Eff.bind
          (Eff.emit (Event.httpGet (b.uriFormat (b.uriParse self._profileURL)) accessToken))
          fun _ => Eff.tryCatch (done JSValue.null profile)
            (fun e => done e JSValue.undefined)) ∧
    (userProfile b self accessToken recordDone).trace =
      [Event.httpGet (b.uriFormat (b.uriParse self._profileURL)) accessToken,
       Event.doneCalled JSValue.null profile] ∧
    (userProfile b self accessToken recordDone).result = Except.ok () ∧
    (∀ s, lookupProp "nickname" pprops = JSValue.str s → s ≠ "" →
      profile.get "displayName" = JSValue.str s) := by
  have hbuild : buildProfile b body = Except.ok profile := by
    rw [buildProfile_ok b body _ hparse rfl (by simp [JSValue.get, hprops, isNullish]), hprofile]
    simp [JSValue.get, hprops]
  have hall : ∀ done : JSValue → JSValue → Eff Unit,
      userProfile b self accessToken done =
        Eff.bind
          (Eff.emit (Event.httpGet (b.uriFormat (b.uriParse self._profileURL)) accessToken))
          fun _ => Eff.tryCatch (done JSValue.null profile)
            (fun e => done e JSValue.undefined) := by
    intro done
    rw [userProfile_fetched b self accessToken err body done hget herr, hbuild,
      Eff.lift_ok_bind]
  refine ⟨hall, ?_, ?_, ?_⟩
  · rw [hall]; rfl
  · rw [hall]; rfl
  · intro s hs hne
    rw [hprofile, hs]
    have : truthy (JSValue.str s) = true := by simp [truthy, hne]
    simp [JSValue.get, lookupProp, jsOr, this]

theorem userProfile_builds_profile_witness :
    (userProfile exampleBuiltins
        (exampleStrategy (JSValue.null, aliceBody) JSValue.undefined
          (verifyOnce JSValue.null JSValue.null JSValue.null))
        (JSValue.str "tok") recordDone).trace =
      [Event.httpGet "https://kapi.kakao.com/v1/user/me" (JSValue.str "tok"),
       Event.doneCalled JSValue.null
        (JSValue.obj
          [("provider", JSValue.str "kakao"),
           ("id", JSValue.num 123),
           ("displayName", JSValue.str "Alice"),
           ("photos", JSValue.arr [JSValue.obj [("value", JSValue.str "http://x/img.png")]]),
           ("_raw", aliceBody),
           ("_json", aliceJson)])] :=
  (userProfile_builds_profile exampleBuiltins
    (exampleStrategy (JSValue.null, aliceBody) JSValue.undefined
      (verifyOnce JSValue.null JSValue.null JSValue.null))
    (JSValue.str "tok") JSValue.null aliceBody
    [("id", JSValue.num 123),
     ("properties", JSValue.obj
        [("nickname", JSValue.str "Alice"), ("profile_image", JSValue.str "http://x/img.png")])]
    [("nickname", JSValue.str "Alice"), ("profile_image", JSValue.str "http://x/img.png")]
    _ rfl rfl rfl rfl rfl).2.1

/-- C5 as stated fails: the body `{"id": 1}` parses as JSON and has no
`properties` object, and `userProfile` calls `done` with a `TypeError` and no
profile instead of a profile with an empty `displayName`. -/
theorem userProfile_without_properties_reports_error :
    exampleJsonParse (JSValue.str "\x7b\"id\": 1\x7d") =
      Except.ok (JSValue.obj [("id", JSValue.num 1)]) ∧
    (userProfile exampleBuiltins
        (exampleStrategy (JSValue.null, JSValue.str "\x7b\"id\": 1\x7d") JSValue.undefined
          (verifyOnce JSValue.null JSValue.null JSValue.null))
        (JSValue.str "tok") recordDone).trace =
      [Event.httpGet "https://kapi.kakao.com/v1/user/me" (JSValue.str "tok"),
       Event.doneCalled (JSValue.error "TypeError" "") JSValue.undefined] :=
  ⟨rfl, rfl⟩

/-- C5, amended: when the profile GET succeeds and the body parses to a JSON
value whose `properties` member is present (neither `undefined` nor `null`)
but holds no nickname (missing or empty), `userProfile` reports no error and
yields a profile whose `displayName` is the empty string. -/
theorem userProfile_displayName_default (b : Builtins) (self : Strategy)
    (accessToken err body json : JSValue)
    (hget : self._oauth2.get (b.uriFormat (b.uriParse self._profileURL)) accessToken = (err, body))
    (herr : truthy err = false)
    (hparse : b.jsonParse body = Except.ok json)
    (hjson : isNullish json = false)
    (hprops : isNullish (json.get "properties") = false)
    (hnick : truthy ((json.get "properties").get "nickname") = false) :
    (userProfile b self accessToken recordDone).trace =
      [Event.httpGet (b.uriFormat (b.uriParse self._profileURL)) accessToken,
       Event.doneCalled JSValue.null
        (JSValue.obj
          [("provider", JSValue.str "kakao"),
           ("id", json.get "id"),
           ("displayName", JSValue.str ""),
           ("photos", JSValue.arr
              [JSValue.obj [("value", (json.get "properties").get "profile_image")]]),
           ("_raw", body),
           ("_json", json)])] ∧
    (userProfile b self accessToken recordDone).result = Except.ok () := by
  have hor : jsOr ((json.get "properties").get "nickname") (JSValue.str "") = JSValue.str "" := by
    simp [jsOr, hnick]
  rw [userProfile_fetched b self accessToken err body recordDone hget herr,
    buildProfile_ok b body json hparse hjson hprops, Eff.lift_ok_bind, hor]
  exact ⟨rfl, rfl⟩

theorem userProfile_displayName_default_witness :
    (userProfile exampleBuiltins
        (exampleStrategy (JSValue.null, JSValue.str "\x7b\"id\": 1, \"properties\": \x7b\x7d\x7d")
          JSValue.undefined (verifyOnce JSValue.null JSValue.null JSValue.null))
        (JSValue.str "tok") recordDone).trace =
      [Event.httpGet "https://kapi.kakao.com/v1/user/me" (JSValue.str "tok"),
       Event.doneCalled JSValue.null
        (JSValue.obj
          [("provider", JSValue.str "kakao"),
           ("id", JSValue.num 1),
           ("displayName", JSValue.str ""),
           ("photos", JSValue.arr [JSValue.obj [("value", JSValue.undefined)]]),
           ("_raw", JSValue.str "\x7b\"id\": 1, \"properties\": \x7b\x7d\x7d"),
           ("_json", JSValue.obj [("id", JSValue.num 1), ("properties", JSValue.obj [])])])] :=
  (userProfile_displayName_default exampleBuiltins
    (exampleStrategy (JSValue.null, JSValue.str "\x7b\"id\": 1, \"properties\": \x7b\x7d\x7d")
      JSValue.undefined (verifyOnce JSValue.null JSValue.null JSValue.null))
    (JSValue.str "tok") JSValue.null (JSValue.str "\x7b\"id\": 1, \"properties\": \x7b\x7d\x7d")
    (JSValue.obj [("id", JSValue.num 1), ("properties", JSValue.obj [])])
    rfl rfl rfl rfl rfl rfl).1

/-- C6: when the profile GET succeeds and `JSON.parse(body)` throws `e`,
`userProfile` calls `done(e)`: the first argument is the parse error itself,
not an `InternalOAuthError`, and there is no second argument. -/
theorem userProfile_parse_error (b : Builtins) (self : Strategy)
    (accessToken err body : JSValue) (e : JSError)
    (hget : self._oauth2.get (b.uriFormat (b.uriParse self._profileURL)) accessToken = (err, body))
    (herr : truthy err = false)
    (hparse : b.jsonParse body = Except.error e) :
    (∀ done : JSValue → JSValue → Eff Unit,
      userProfile b self accessToken done =
        Eff.bind
          (Eff.emit (Event.httpGet (b.uriFormat (b.uriParse self._profileURL)) accessToken))
          fun _ => done e.toValue JSValue.undefined) ∧
    (userProfile b self accessToken recordDone).trace =
      [Event.httpGet (b.uriFormat (b.uriParse self._profileURL)) accessToken,
       Event.doneCalled (JSValue.error e.name e.message) JSValue.undefined] ∧
    (∀ message cause, e.toValue ≠ JSValue.internalOAuthError message cause) := by
  have hbuild : buildProfile b body = Except.error e := by
    unfold buildProfile
    rw [hparse]
  have hall : ∀ done : JSValue → JSValue → Eff Unit,
      userProfile b self accessToken done =
        Eff.bind
          (Eff.emit (Event.httpGet (b.uriFormat (b.uriParse self._profileURL)) accessToken))
          fun _ => done e.toValue JSValue.undefined := by
    intro done
    rw [userProfile_fetched b self accessToken err body done hget herr, hbuild,
      Eff.lift_error_bind, Eff.throw_tryCatch]
  refine ⟨hall, ?_, ?_⟩
  · rw [hall]; rfl
  · intro message cause h
    simp [JSError.toValue] at h

theorem userProfile_parse_error_witness :
    (userProfile exampleBuiltins
        (exampleStrategy (JSValue.null, JSValue.str "<html>oops</html>") JSValue.undefined
          (verifyOnce JSValue.null JSValue.null JSValue.null))
        (JSValue.str "tok") recordDone).trace =
      [Event.httpGet "https://kapi.kakao.com/v1/user/me" (JSValue.str "tok"),
       Event.doneCalled (JSValue.error "SyntaxError" "") JSValue.undefined] :=
  (userProfile_parse_error exampleBuiltins
    (exampleStrategy (JSValue.null, JSValue.str "<html>oops</html>") JSValue.undefined
      (verifyOnce JSValue.null JSValue.null JSValue.null))
    (JSValue.str "tok") JSValue.null (JSValue.str "<html>oops</html>") syntaxError
    rfl rfl rfl).2.1

/-! ## After the profile fetch (C7, C8, C9) -/

theorem authenticate_fetched (b : Builtins) (host : Host) (self : Strategy)
    (req accessToken refreshToken err body profile : JSValue)
    (haccess : extractField req self._accessTokenField = Except.ok accessToken)
    (hrefresh : extractField req self._refreshTokenField = Except.ok refreshToken)
    (htoken : truthy accessToken = true)
    (hget : self._oauth2.get (b.uriFormat (b.uriParse self._profileURL)) accessToken = (err, body))
    (herr : truthy err = false)
    (hbuild : buildProfile b body = Except.ok profile) :
    authenticate b host self req =
      Eff.bind
        (Eff.emit (Event.httpGet (b.uriFormat (b.uriParse self._profileURL)) accessToken))
        fun _ =>
          Eff.tryCatch
            (callVerify self host
              (if truthy self._passReqToCallback then
                [Arg.value req, Arg.value accessToken, Arg.value refreshToken,
                 Arg.value profile, Arg.verifiedCallback]
               else
                [Arg.value accessToken, Arg.value refreshToken, Arg.value profile,
                 Arg.verifiedCallback]))
            (fun e =>
              afterProfile host self req accessToken refreshToken e JSValue.undefined) := by
  rw [authenticate_with_token b host self req accessToken refreshToken haccess hrefresh htoken,
    userProfile_fetched b self accessToken err body _ hget herr, hbuild, Eff.lift_ok_bind,
    afterProfile_null]

theorem Eff.tryCatch_trace {α : Type} (body : Eff α) (handler : JSValue → Eff α) :
    (Eff.tryCatch body handler).trace =
      body.trace ++
        (match body.result with
         | Except.ok _ => []
         | Except.error e => (handler e).trace) := by
  unfold Eff.tryCatch
  cases body.result <;> simp

theorem callVerify_verifyCalls (self : Strategy) (host : Host) (args : List Arg) :
    verifyCallsOf (callVerify self host args).trace = [args] := by
  unfold callVerify
  rw [Eff.emit_bind_trace]
  have h := runScript_verifyCalls host (self._verify args)
  simp only [verifyCallsOf, List.filterMap_cons] at h ⊢
  rw [h]

theorem callVerify_once_trace (self : Strategy) (host : Host) (args : List Arg)
    (error user info : JSValue)
    (hverify : self._verify args = VerifyScript.callVerified error user info VerifyScript.ret) :
    (callVerify self host args).trace =
      [Event.verifyCalled args, Event.signal (verdict error user info)] ∧
    (callVerify self host args).result =
      (match host (verdict error user info) with
       | some e => Except.error e
       | none => Except.ok ()) := by
  unfold callVerify
  rw [hverify]
  simp only [runScript, verified_eq, callSignal]
  cases host (verdict error user info) <;>
    simp [Eff.bind, Eff.emit, Eff.throw, Eff.pure]

/-- C7: when the profile GET reports an error `err`, `userProfile` calls
`done(new InternalOAuthError("Failed to fetch user profile", err))` with no
profile, whatever `JSON.parse` would make of the body; `authenticate`, run on
a request with a non-empty access token, then performs the GET and the signal
`error` with that wrapped error and nothing else: no `fail`, no `success`, no
call of the verification function. -/
theorem profile_fetch_error_wrapped (b : Builtins) (self : Strategy)
    (accessToken err body : JSValue)
    (hget : self._oauth2.get (b.uriFormat (b.uriParse self._profileURL)) accessToken = (err, body))
    (herr : truthy err = true) :
    (∀ done : JSValue → JSValue → Eff Unit,
      userProfile b self accessToken done =
        Eff.bind
          (Eff.emit (Event.httpGet (b.uriFormat (b.uriParse self._profileURL)) accessToken))
          fun _ => done (JSValue.internalOAuthError "Failed to fetch user profile" err)
            JSValue.undefined) ∧
    (userProfile b self accessToken recordDone).trace =
      [Event.httpGet (b.uriFormat (b.uriParse self._profileURL)) accessToken,
       Event.doneCalled (JSValue.internalOAuthError "Failed to fetch user profile" err)
        JSValue.undefined] ∧
    (∀ (host : Host) (req refreshToken : JSValue),
      extractField req self._accessTokenField = Except.ok accessToken →
      extractField req self._refreshTokenField = Except.ok refreshToken →
      truthy accessToken = true →
      (authenticate b host self req).trace =
        [Event.httpGet (b.uriFormat (b.uriParse self._profileURL)) accessToken,
         Event.signal (Signal.error
          (JSValue.internalOAuthError "Failed to fetch user profile" err))]) := by
  refine ⟨fun done => userProfile_fetch_failed b self accessToken err body done hget herr, ?_, ?_⟩
  · rw [userProfile_fetch_failed b self accessToken err body _ hget herr]
    rfl
  · intro host req refreshToken haccess hrefresh htoken
    rw [authenticate_with_token b host self req accessToken refreshToken haccess hrefresh htoken,
      userProfile_fetch_failed b self accessToken err body _ hget herr, Eff.emit_bind_trace,
      afterProfile_error host self req accessToken refreshToken
        (JSValue.internalOAuthError "Failed to fetch user profile" err) JSValue.undefined rfl,
      callSignal_trace]

theorem profile_fetch_error_wrapped_witness :
    (authenticate exampleBuiltins quietHost
        (exampleStrategy (JSValue.error "Error" "ECONNRESET", JSValue.undefined)
          JSValue.undefined (verifyOnce JSValue.null JSValue.null JSValue.null))
        bodyTokenRequest).trace =
      [Event.httpGet "https://kapi.kakao.com/v1/user/me" (JSValue.str "tok"),
       Event.signal (Signal.error
        (JSValue.internalOAuthError "Failed to fetch user profile"
          (JSValue.error "Error" "ECONNRESET")))] :=
  (profile_fetch_error_wrapped exampleBuiltins
    (exampleStrategy (JSValue.error "Error" "ECONNRESET", JSValue.undefined)
      JSValue.undefined (verifyOnce JSValue.null JSValue.null JSValue.null))
    (JSValue.str "tok") (JSValue.error "Error" "ECONNRESET") JSValue.undefined rfl rfl).2.2
    quietHost bodyTokenRequest JSValue.undefined rfl rfl rfl

/-- C8: after a successful profile fetch, when the verification function calls
`verified(error, user, info)`, the signal `authenticate` gives is `error(error)`
if `error` is set (whatever `user` is), else `fail(info)` if `user` is falsy,
else `success(user, info)`; when the host's signals return normally it is the
only signal of the invocation. -/
theorem verified_outcome_signalled (b : Builtins) (host : Host) (self : Strategy)
    (req accessToken refreshToken err body profile error user info : JSValue)
    (haccess : extractField req self._accessTokenField = Except.ok accessToken)
    (hrefresh : extractField req self._refreshTokenField = Except.ok refreshToken)
    (htoken : truthy accessToken = true)
    (hget : self._oauth2.get (b.uriFormat (b.uriParse self._profileURL)) accessToken = (err, body))
    (herr : truthy err = false)
    (hbuild : buildProfile b body = Except.ok profile)
    (hverify : ∀ args,
      self._verify args = VerifyScript.callVerified error user info VerifyScript.ret) :
    (truthy error = true →
      (signalsOf (authenticate b host self req).trace).head? = some (Signal.error error)) ∧
    (truthy error = false → truthy user = false →
      (signalsOf (authenticate b host self req).trace).head? = some (Signal.fail info)) ∧
    (truthy error = false → truthy user = true →
      (signalsOf (authenticate b host self req).trace).head? =
        some (Signal.success user info)) ∧
    ((∀ s, host s = none) →
      (signalsOf (authenticate b host self req).trace).length = 1 ∧
      (authenticate b host self req).result = Except.ok ()) := by
  have hauth := authenticate_fetched b host self req accessToken refreshToken err body profile
    haccess hrefresh htoken hget herr hbuild
  have hhead : (signalsOf (authenticate b host self req).trace).head? =
      some (verdict error user info) := by
    rw [hauth, Eff.emit_bind_trace, Eff.tryCatch_trace,
      (callVerify_once_trace self host _ error user info (hverify _)).1]
    rfl
  refine ⟨?_, ?_, ?_, ?_⟩
  · intro he
    rw [hhead]; simp [verdict, he]
  · intro he hu
    rw [hhead]; simp [verdict, he, hu]
  · intro he hu
    rw [hhead]; simp [verdict, he, hu]
  · intro hquiet
    have hres := (callVerify_once_trace self host
      (if truthy self._passReqToCallback then
          [Arg.value req, Arg.value accessToken, Arg.value refreshToken,
           Arg.value profile, Arg.verifiedCallback]
         else
          [Arg.value accessToken, Arg.value refreshToken, Arg.value profile,
           Arg.verifiedCallback]) error user info (hverify _))
    rw [hquiet] at hres
    constructor
    · rw [hauth, Eff.emit_bind_trace, Eff.tryCatch_trace, hres.1, hres.2]
      rfl
    · rw [hauth, Eff.emit_bind_result]
      unfold Eff.tryCatch
      rw [hres.2]

theorem verified_outcome_signalled_witness :
    (signalsOf
        (authenticate exampleBuiltins quietHost
          (exampleStrategy (JSValue.null, aliceBody) JSValue.undefined
            (verifyOnce JSValue.null (JSValue.bool false)
              (JSValue.obj [("reason", JSValue.str "banned")])))
          bodyTokenRequest).trace).head? =
      some (Signal.fail (JSValue.obj [("reason", JSValue.str "banned")])) ∧
    (signalsOf
        (authenticate exampleBuiltins quietHost
          (exampleStrategy (JSValue.null, aliceBody) JSValue.undefined
            (verifyOnce JSValue.null (JSValue.obj [("id", JSValue.num 1)])
              (JSValue.obj [("scope", JSValue.str "full")])))
          bodyTokenRequest).trace).head? =
      some (Signal.success (JSValue.obj [("id", JSValue.num 1)])
        (JSValue.obj [("scope", JSValue.str "full")])) :=
  ⟨(verified_outcome_signalled exampleBuiltins quietHost
      (exampleStrategy (JSValue.null, aliceBody) JSValue.undefined
        (verifyOnce JSValue.null (JSValue.bool false)
          (JSValue.obj [("reason", JSValue.str "banned")])))
      bodyTokenRequest (JSValue.str "tok") JSValue.undefined JSValue.null aliceBody aliceProfile
      JSValue.null (JSValue.bool false) (JSValue.obj [("reason", JSValue.str "banned")])
      rfl rfl rfl rfl rfl rfl (fun _ => rfl)).2.1 rfl rfl,
   (verified_outcome_signalled exampleBuiltins quietHost
      (exampleStrategy (JSValue.null, aliceBody) JSValue.undefined
        (verifyOnce JSValue.null (JSValue.obj [("id", JSValue.num 1)])
          (JSValue.obj [("scope", JSValue.str "full")])))
      bodyTokenRequest (JSValue.str "tok") JSValue.undefined JSValue.null aliceBody aliceProfile
      JSValue.null (JSValue.obj [("id", JSValue.num 1)])
      (JSValue.obj [("scope", JSValue.str "full")])
      rfl rfl rfl rfl rfl rfl (fun _ => rfl)).2.2.1 rfl rfl⟩

theorem verify_invoked_once_unless_falsy_thrown (b : Builtins) (host : Host) (self : Strategy)
    (req accessToken refreshToken err body profile : JSValue)
    (haccess : extractField req self._accessTokenField = Except.ok accessToken)
    (hrefresh : extractField req self._refreshTokenField = Except.ok refreshToken)
    (htoken : truthy accessToken = true)
    (hget : self._oauth2.get (b.uriFormat (b.uriParse self._profileURL)) accessToken = (err, body))
    (herr : truthy err = false)
    (hbuild : buildProfile b body = Except.ok profile)
    (hthrown : ∀ args e,
      (callVerify self host args).result = Except.error e → truthy e = true) :
    (truthy self._passReqToCallback = true →
      verifyCallsOf (authenticate b host self req).trace =
        [[Arg.value req, Arg.value accessToken, Arg.value refreshToken, Arg.value profile,
          Arg.verifiedCallback]]) ∧
    (truthy self._passReqToCallback = false →
      verifyCallsOf (authenticate b host self req).trace =
        [[Arg.value accessToken, Arg.value refreshToken, Arg.value profile,
          Arg.verifiedCallback]]) := by
  have hauth := authenticate_fetched b host self req accessToken refreshToken err body profile
    haccess hrefresh htoken hget herr hbuild
  have hcalls : ∀ args : List Arg,
      verifyCallsOf
        (Eff.bind
          (Eff.emit (Event.httpGet (b.uriFormat (b.uriParse self._profileURL)) accessToken))
          fun _ => Eff.tryCatch (callVerify self host args)
            (fun e =>
              afterProfile host self req accessToken refreshToken e JSValue.undefined)).trace =
        [args] := by
    intro args
    rw [Eff.emit_bind_trace, Eff.tryCatch_trace]
    have h1 := callVerify_verifyCalls self host args
    simp only [verifyCallsOf, List.filterMap_cons, List.filterMap_append] at h1 ⊢
    rw [h1]
    cases hres : (callVerify self host args).result with
    | ok _ => rfl
    | error e =>
        simp [afterProfile_error host self req accessToken refreshToken e JSValue.undefined
          (hthrown args e hres), callSignal_trace]
  constructor
  · intro hflag
    rw [hauth, hcalls]
    simp [hflag]
  · intro hflag
    rw [hauth, hcalls]
    simp [hflag]

/-- C9: the request carries an access token and a refresh token, the profile
GET succeeds with the document of the specification example, and the
verification function calls `verified(null, {id: 1})` and then throws
`undefined`.  This is the defect of C3: the thrown value leaves
`done(null, profile)` inside the `try` block of `userProfile`, the `catch`
calls `done(undefined)`, the falsy error passes the test of line 61, and the
verification function is invoked a second time, with `undefined` in place of
the profile. -/
theorem authenticate_verifies_twice :
    verifyCallsOf
        (authenticate exampleBuiltins quietHost
          (exampleStrategy (JSValue.null, aliceBody) JSValue.undefined
            (verifyThenThrow JSValue.null (JSValue.obj [("id", JSValue.num 1)])
              JSValue.undefined JSValue.undefined))
          (JSValue.obj [("body", JSValue.obj [("access_token", JSValue.str "tok")]),
            ("headers", JSValue.obj [("refresh_token", JSValue.str "ref")])])).trace =
      [[Arg.value (JSValue.str "tok"), Arg.value (JSValue.str "ref"), Arg.value aliceProfile,
        Arg.verifiedCallback],
       [Arg.value (JSValue.str "tok"), Arg.value (JSValue.str "ref"),
        Arg.value JSValue.undefined, Arg.verifiedCallback]] := by
  rfl

/-! ## Construction (C10) -/

theorem orDefault_spec (supplied : Option String) (dflt : String) :
    SuppliedOrDefault supplied dflt (orDefault supplied dflt) := by
  unfold SuppliedOrDefault orDefault
  constructor
  · intro v hv hne
    subst hv
    simp [hne]
  · rintro (h | h) <;> subst h <;> simp

theorem normalizeOptions_keeps (options : Option Options) :
    (normalizeOptions options).accessTokenField =
      (options.getD Options.empty).accessTokenField ∧
    (normalizeOptions options).refreshTokenField =
      (options.getD Options.empty).refreshTokenField ∧
    (normalizeOptions options).profileURL = (options.getD Options.empty).profileURL ∧
    (normalizeOptions options).passReqToCallback =
      (options.getD Options.empty).passReqToCallback := by
  unfold normalizeOptions
  by_cases h1 : (options.getD Options.empty).readOnly "authorizationURL" = true <;>
    by_cases h2 : (options.getD Options.empty).readOnly "tokenURL" = true <;>
    by_cases h3 : (options.getD Options.empty).readOnly "scopeSeparator" = true <;>
    by_cases h4 : (options.getD Options.empty).readOnly "clientSecret" = true <;>
    simp [h1, h2, h3, h4]

theorem normalizeOptions_authorizationURL (options : Option Options)
    (h : (options.getD Options.empty).readOnly "authorizationURL" = false) :
    (normalizeOptions options).authorizationURL =
      some (orDefault (options.getD Options.empty).authorizationURL
        "https://kauth.kakao.com/oauth/authorize") := by
  unfold normalizeOptions
  by_cases h1 : (options.getD Options.empty).readOnly "tokenURL" = true <;>
    by_cases h2 : (options.getD Options.empty).readOnly "scopeSeparator" = true <;>
    by_cases h3 : (options.getD Options.empty).readOnly "clientSecret" = true <;>
    simp [h, h1, h2, h3]

theorem normalizeOptions_tokenURL (options : Option Options)
    (h : (options.getD Options.empty).readOnly "tokenURL" = false) :
    (normalizeOptions options).tokenURL =
      some (orDefault (options.getD Options.empty).tokenURL
        "https://kauth.kakao.com/oauth/token") := by
  unfold normalizeOptions
  by_cases h1 : (options.getD Options.empty).readOnly "authorizationURL" = true <;>
    by_cases h2 : (options.getD Options.empty).readOnly "scopeSeparator" = true <;>
    by_cases h3 : (options.getD Options.empty).readOnly "clientSecret" = true <;>
    simp [h, h1, h2, h3]

theorem normalizeOptions_scopeSeparator (options : Option Options)
    (h : (options.getD Options.empty).readOnly "scopeSeparator" = false) :
    (normalizeOptions options).scopeSeparator =
      some (orDefault (options.getD Options.empty).scopeSeparator ",") := by
  unfold normalizeOptions
  by_cases h1 : (options.getD Options.empty).readOnly "authorizationURL" = true <;>
    by_cases h2 : (options.getD Options.empty).readOnly "tokenURL" = true <;>
    by_cases h3 : (options.getD Options.empty).readOnly "clientSecret" = true <;>
    simp [h, h1, h2, h3]

theorem normalizeOptions_clientSecret (options : Option Options)
    (h : (options.getD Options.empty).readOnly "clientSecret" = false) :
    (normalizeOptions options).clientSecret = some "kakao" := by
  unfold normalizeOptions
  by_cases h1 : (options.getD Options.empty).readOnly "authorizationURL" = true <;>
    by_cases h2 : (options.getD Options.empty).readOnly "tokenURL" = true <;>
    by_cases h3 : (options.getD Options.empty).readOnly "scopeSeparator" = true <;>
    simp [h, h1, h2, h3]

/-- C10 as stated fails on two inputs the constructor accepts.  A scope
separator supplied as the empty string is replaced by `,`.  On a frozen options
object the assignment of line 31 is dropped, so the base constructor builds
the OAuth2 client with the caller's client secret `mine`, not with `kakao`. -/
theorem constructor_overrides_empty_and_keeps_frozen :
    (emptySeparatorOptions.scopeSeparator = some "" ∧
      (normalizeOptions (some emptySeparatorOptions)).scopeSeparator = some "," ∧
      (KakaoTokenStrategy exampleBase (some emptySeparatorOptions)
        (verifyOnce JSValue.null JSValue.null JSValue.null)).toBool = true) ∧
    ((normalizeOptions (some frozenOptions)).clientSecret = some "mine" ∧
      (exampleBase (normalizeOptions (some frozenOptions))
          (verifyOnce JSValue.null JSValue.null JSValue.null)).toOption.map
        (fun inst => inst._oauth2._clientSecret) = some (some "mine") ∧
      (KakaoTokenStrategy exampleBase (some frozenOptions)
        (verifyOnce JSValue.null JSValue.null JSValue.null)).toBool = true) :=
  ⟨⟨rfl, rfl, rfl⟩, ⟨rfl, rfl, rfl⟩⟩

/-- C10, amended: for every options object (or none) the constructor accepts,
the access-token field, the refresh-token field and the profile URL of the
instance are the supplied value when one is supplied and non-empty, and the
default (`access_token`, `refresh_token`, the Kakao profile URL) otherwise;
for each key the options object lets the constructor assign, the scope
separator, the authorization URL and the token URL handed to the base
constructor are likewise the supplied non-empty value or the default (`,` and
the Kakao endpoints), and the client secret handed over is the constant
`kakao` whatever the caller supplied; the OAuth2 client of the constructed
instance has no `_clientSecret`. -/
theorem constructor_defaults
    (base : Options → (List Arg → VerifyScript) → Except JSError BaseInstance)
    (options : Option Options) (verify : List Arg → VerifyScript) (inst : BaseInstance)
    (hbase : base (normalizeOptions options) verify = Except.ok inst) :
    ∃ s, KakaoTokenStrategy base options verify = Except.ok s ∧
      SuppliedOrDefault (options.getD Options.empty).accessTokenField "access_token"
        s._accessTokenField ∧
      SuppliedOrDefault (options.getD Options.empty).refreshTokenField "refresh_token"
        s._refreshTokenField ∧
      SuppliedOrDefault (options.getD Options.empty).profileURL
        "https://kapi.kakao.com/v1/user/me" s._profileURL ∧
      ((options.getD Options.empty).readOnly "scopeSeparator" = false →
        ∃ sep, (normalizeOptions options).scopeSeparator = some sep ∧
          SuppliedOrDefault (options.getD Options.empty).scopeSeparator "," sep) ∧
      ((options.getD Options.empty).readOnly "authorizationURL" = false →
        ∃ url, (normalizeOptions options).authorizationURL = some url ∧
          SuppliedOrDefault (options.getD Options.empty).authorizationURL
            "https://kauth.kakao.com/oauth/authorize" url) ∧
      ((options.getD Options.empty).readOnly "tokenURL" = false →
        ∃ url, (normalizeOptions options).tokenURL = some url ∧
          SuppliedOrDefault (options.getD Options.empty).tokenURL
            "https://kauth.kakao.com/oauth/token" url) ∧
      ((options.getD Options.empty).readOnly "clientSecret" = false →
        (normalizeOptions options).clientSecret = some "kakao") ∧
      s._oauth2._clientSecret = none ∧
      s._passReqToCallback = (options.getD Options.empty).passReqToCallback ∧
      s.name = "kakao-token" := by
  have hs : KakaoTokenStrategy base options verify =
      Except.ok
        { name := "kakao-token",
          _accessTokenField := orDefault (normalizeOptions options).accessTokenField "access_token",
          _refreshTokenField :=
            orDefault (normalizeOptions options).refreshTokenField "refresh_token",
          _passReqToCallback := (normalizeOptions options).passReqToCallback,
          _profileURL :=
            orDefault (normalizeOptions options).profileURL "https://kapi.kakao.com/v1/user/me",
          _oauth2 := { inst._oauth2 with _clientSecret := none },
          _verify := inst._verify } := by
    unfold KakaoTokenStrategy
    simp only [hbase]
  obtain ⟨ka, kr, kp, kq⟩ := normalizeOptions_keeps options
  refine ⟨_, hs, ?_, ?_, ?_, ?_, ?_, ?_, ?_, rfl, kq, rfl⟩
  · simp only [ka]; exact orDefault_spec _ _
  · simp only [kr]; exact orDefault_spec _ _
  · simp only [kp]; exact orDefault_spec _ _
  · intro h
    exact ⟨_, normalizeOptions_scopeSeparator options h, orDefault_spec _ _⟩
  · intro h
    exact ⟨_, normalizeOptions_authorizationURL options h, orDefault_spec _ _⟩
  · intro h
    exact ⟨_, normalizeOptions_tokenURL options h, orDefault_spec _ _⟩
  · intro h
    exact normalizeOptions_clientSecret options h

theorem constructor_defaults_witness :
    ∃ s, KakaoTokenStrategy exampleBase (some exampleOptions)
        (verifyOnce JSValue.null JSValue.null JSValue.null) = Except.ok s ∧
      s._accessTokenField = "token" ∧ s._refreshTokenField = "refresh_token" ∧
      (normalizeOptions (some exampleOptions)).clientSecret = some "kakao" ∧
      s._oauth2._clientSecret = none :=
  match constructor_defaults exampleBase (some exampleOptions)
      (verifyOnce JSValue.null JSValue.null JSValue.null) _ rfl with
  | ⟨s, hs, ha, hr, _, _, _, _, hk, hc, _⟩ =>
      ⟨s, hs, ha.1 "token" rfl (by decide), hr.2 (Or.inl rfl), hk rfl, hc⟩

/-! ## Where the one-signal invariant does hold -/

theorem authenticate_one_signal_when_nothing_throws (b : Builtins) (host : Host)
    (self : Strategy) (req error user info : JSValue)
    (hreq : isNullish req = false)
    (hquiet : ∀ s, host s = none)
    (hverify : ∀ args,
      self._verify args = VerifyScript.callVerified error user info VerifyScript.ret) :
    (signalsOf (authenticate b host self req).trace).length = 1 := by
  obtain ⟨accessToken, haccess⟩ : ∃ v, extractField req self._accessTokenField = Except.ok v :=
    ⟨_, extractField_ok _ hreq⟩
  obtain ⟨refreshToken, hrefresh⟩ :
      ∃ v, extractField req self._refreshTokenField = Except.ok v :=
    ⟨_, extractField_ok _ hreq⟩
  by_cases htoken : truthy accessToken = true
  · rw [authenticate_with_token b host self req accessToken refreshToken haccess hrefresh htoken]
    obtain ⟨err, body, hget⟩ : ∃ err body,
        self._oauth2.get (b.uriFormat (b.uriParse self._profileURL)) accessToken = (err, body) :=
      ⟨_, _, rfl⟩
    by_cases herr : truthy err = true
    · rw [userProfile_fetch_failed b self accessToken err body _ hget herr, Eff.emit_bind_trace,
        afterProfile_error host self req accessToken refreshToken
          (JSValue.internalOAuthError "Failed to fetch user profile" err) JSValue.undefined rfl,
        callSignal_trace]
      rfl
    · have herr2 : truthy err = false := by simpa using herr
      rw [userProfile_fetched b self accessToken err body _ hget herr2, Eff.emit_bind_trace]
      cases hbuild : buildProfile b body with
      | error e =>
          rw [Eff.lift_error_bind, Eff.throw_tryCatch,
            afterProfile_error host self req accessToken refreshToken e.toValue
              JSValue.undefined rfl, callSignal_trace]
          rfl
      | ok profile =>
          have hres := callVerify_once_trace self host
            (if truthy self._passReqToCallback then
                [Arg.value req, Arg.value accessToken, Arg.value refreshToken,
                 Arg.value profile, Arg.verifiedCallback]
               else
                [Arg.value accessToken, Arg.value refreshToken, Arg.value profile,
                 Arg.verifiedCallback]) error user info (hverify _)
          rw [hquiet] at hres
          rw [Eff.lift_ok_bind, afterProfile_null, Eff.tryCatch_trace, hres.1, hres.2]
          rfl
  · have htoken2 : truthy accessToken = false := by simpa using htoken
    unfold authenticate
    rw [haccess, hrefresh, Eff.lift_ok_bind, Eff.lift_ok_bind]
    simp only [htoken2, Bool.not_false, if_true]
    rw [callSignal_trace]
    rfl

end KakaoToken
